import Mathlib

/-!
A shallow embedding, in Lean, of the SQL Server Agent automated-test helpers
(`automated_tests/helper/agent_helper.py`, `integrationtest_helper.py`,
`loadtest_helper.py` and their support modules), together with theorems that
settle the testable properties of the specification against the code.

Remote hosts are modelled by abstract executors: a function from the command
string to the `(status, stdout, stderr)` triple that
`bct_test_utils.RunCommandOnVm` / `windows_test_utils.RunCommandOrRaiseOnFailure`
would return.  Python strings are modelled as `List Char` wherever character
level processing matters, so that every definition evaluates inside the kernel.
-/
/-! ## Python string primitives -/
/-- Python `str.split(sep)` for a single-character separator: splits on every
occurrence, keeping empty fields, so `"".split(sep) = [""]`. -/
def splitOnChar (sep : Char) : List Char → List (List Char)
  | [] => [[]]
  | c :: rest =>
    let r := splitOnChar sep rest
    if c = sep then [] :: r
    else
      match r with
      | [] => [[c]]
      | h :: t => (c :: h) :: t

/-- Python `str.strip()` with no argument: remove leading and trailing
whitespace.  (`Char.isWhitespace` covers space, tab, CR and LF, which is what
the agent logs and service-status outputs contain.) -/
def pyStrip (s : List Char) : List Char :=
  (((s.dropWhile Char.isWhitespace).reverse).dropWhile Char.isWhitespace).reverse

/-- Python `int(s)` on a decimal string: optional surrounding whitespace, an
optional sign, then one or more ASCII digits; anything else raises
`ValueError`, modelled as `none`.  (Underscore digit grouping is not used by
any input in this repository and is not modelled.) -/
def pyInt (s : List Char) : Option Int :=
  let t := pyStrip s
  let (neg, digits) :=
    match t with
    | '-' :: rest => (true, rest)
    | '+' :: rest => (false, rest)
    | _ => (false, t)
  if digits ≠ [] ∧ digits.all Char.isDigit then
    let n : Nat := digits.foldl (fun acc d => 10 * acc + (d.toNat - 48)) 0
    some (if neg then -(n : Int) else (n : Int))
  else none

/-- One step bounded helper for `strReplace`; the fuel starts at the length of
the string, which one consumes at least one character per step, so the fuel
never runs out before the string does. -/
def strReplaceAux (pat rep : List Char) : Nat → List Char → List Char
  | 0, s => s
  | fuel + 1, s =>
    match s with
    | [] => []
    | c :: rest =>
      if pat ≠ [] ∧ pat.isPrefixOf (c :: rest) then
        rep ++ strReplaceAux pat rep fuel ((c :: rest).drop pat.length)
      else
        c :: strReplaceAux pat rep fuel rest

/-- Python `s.replace(pat, rep)`: replace the non-overlapping occurrences of
`pat`, scanning left to right; the replacement text is never rescanned. -/
def strReplace (s pat rep : List Char) : List Char :=
  strReplaceAux pat rep s.length s

/-- A `mapM` over `Option`, written with structural recursion so that it
evaluates in the kernel; models a Python loop that raises out of the whole
function at the first failing element. -/
def mapMOpt (f : α → Option β) : List α → Option (List β)
  | [] => some []
  | a :: as =>
    match f a, mapMOpt f as with
    | some b, some bs => some (b :: bs)
    | _, _ => none

/-! ## Exceptions and command results

From `automated_tests/base/exceptions.py`; only the constructors the embedded
helpers raise are modelled.  A raised exception is an `Except.error`. -/
inductive PyExn where
  | runCommandError (msg : String)
  | agentExecutionError (msg : String)
  | evaluationExecutionError (msg : String)
  | runLoadTestError (msg : String)
  | keyError
deriving DecidableEq

/-- The `(status, stdout, stderr)` triple a remote command returns. -/
structure CmdResult where
  status : Int
  out : String
  err : String
deriving DecidableEq

/-! ## Evaluation Poller (`agent_helper._GetExecutionStatus`, lines 306-338;
`integrationtest_helper._GetExecutionStatus` is character for character the
same logic)

The GET command is fixed for the whole poll sequence, so the remote responses
are modelled as a stream: `responses i` is the pair of the JSON `state` field
that `json.loads` extracts from the stdout of the i-th GET call
(0-indexed), and the stderr of that call. -/
inductive ExecResult where
  | ok (state : String)
  | raise (exn : PyExn)
deriving DecidableEq

/-- Outcome of a poll sequence: the returned state (or raised exception), the
number of remote GET calls issued, and the number of `time.sleep(60)` waits. -/
structure PollOutcome where
  result : ExecResult
  gets : Nat
  sleeps : Nat
deriving DecidableEq

/-- The `for i in range(0, 10)` loop of `_GetExecutionStatus`: parse the state
held in `st`; while it is `RUNNING`, sleep and issue another GET (raising on a
non-empty stderr); a non-`RUNNING` state returns at once; when the ten
iterations are spent the function returns `FAILED`. -/
def pollLoop (responses : Nat → String × String) :
    Nat → String → Nat → Nat → PollOutcome
  | 0, _, gets, sleeps => ⟨ExecResult.ok "FAILED", gets, sleeps⟩
  | fuel + 1, st, gets, sleeps =>
    if st = "RUNNING" then
      let (out, err) := responses gets
      if err ≠ "" then
        ⟨ExecResult.raise
          (PyExn.evaluationExecutionError
            ("Failed to get execution status: " ++ err)),
         gets + 1, sleeps + 1⟩
      else pollLoop responses fuel out (gets + 1) (sleeps + 1)
    else ⟨ExecResult.ok st, gets, sleeps⟩

/-- The function `_GetExecutionStatus`: one GET before the loop (raising on a non-empty
stderr), then the ten-iteration poll loop. -/
def GetExecutionStatus (responses : Nat → String × String) : PollOutcome :=
  let (out, err) := responses 0
  if err ≠ "" then
    ⟨ExecResult.raise
      (PyExn.evaluationExecutionError ("Failed to get execution status: " ++ err)),
     1, 0⟩
  else pollLoop responses 10 out 1 0

/-- Tail of `VerifyEvaluationRun` (`agent_helper.py` lines 172-193): the
execution status is fetched by `GetExecutionStatus`, and a final status of
`FAILED` raises `EvaluationExecutionError`; every other returned status is
success. -/
def VerifyEvaluationRun (responses : Nat → String × String)
    (evaluationId executionId : String) : ExecResult :=
  match GetExecutionStatus responses with
  | ⟨ExecResult.raise e, _, _⟩ => ExecResult.raise e
  | ⟨ExecResult.ok st, _, _⟩ =>
    if st = "FAILED" then
      ExecResult.raise
        (PyExn.evaluationExecutionError
          ("Execution=" ++ executionId ++ " of Evaluation=" ++ evaluationId
            ++ " failed."))
    else ExecResult.ok st

/-! ## Lifecycle Driver: `VerifyAgentRunning` log scan

(`agent_helper.py` lines 160-170 and `integrationtest_helper.py` lines
155-165: the scanning loop is identical in both.)  The fetched log text is the
`out` of the `Get-Content` command; the scan is pure string processing. -/
/-- The structured error marker: a log line reporting an error starts with the
JSON fragment `{"level":"error"`. -/
def logErrorMarker : List Char := "\x7b\"level\":\"error\"".toList

/-- The `err_msg` accumulator of the scanning loop: for every line that starts
with the marker, append the stripped line and a newline. -/
def agentLogErrMsg (out : List Char) : List Char :=
  (splitOnChar '\n' out).foldl
    (fun acc line =>
      if logErrorMarker.isPrefixOf line then acc ++ (pyStrip line ++ ['\n'])
      else acc) []

/-- The `has_err` flag of the scanning loop: some line starts with the marker. -/
def agentLogHasErr (out : List Char) : Bool :=
  (splitOnChar '\n' out).any (fun line => logErrorMarker.isPrefixOf line)

/-- The log lines that start with the error marker (the lines the loop acts
on). -/
def agentErrorLines (out : List Char) : List (List Char) :=
  (splitOnChar '\n' out).filter (fun line => logErrorMarker.isPrefixOf line)

/-- The log-scanning tail of `VerifyAgentRunning`: raise `AgentExecutionError`
(whose message is the fixed header followed by `err_msg`) when `has_err` is
set, succeed otherwise.  `some msg` models the message of the raised exception. -/
def VerifyAgentRunningScan (out : List Char) : Option (List Char) :=
  if agentLogHasErr out then
    some ("Unexpected error happens during the run. \n".toList ++ agentLogErrMsg out)
  else none

/-! ## Lifecycle Driver: `StartService` (`agent_helper.py` lines 123-137,
195-229)

Constants from `sqlserveragent_test_constants.py`; the helper builds its
PowerShell commands only on the Windows branch and otherwise leaves the
command string empty, exactly as the source does. -/
def SQL_SERVER_AGENT_NAME : String := "google-cloud-sql-server-agent"

def SQL_SERVER_AGENT_LOG_PATH_WINDOWS : String :=
  "C:\\ProgramData\\Google\\google-cloud-sql-server-agent\\logs\\google-cloud-sql-server-agent.log"

/-- The command `_ServiceStatus` runs. -/
def serviceStatusCmd (windows : Bool) : String :=
  if windows then "$(Get-Service -Name " ++ SQL_SERVER_AGENT_NAME ++ ").Status"
  else ""

/-- The command `_StopService` runs. -/
def stopServiceCmd (windows : Bool) : String :=
  if windows then "Stop-Service -Name " ++ SQL_SERVER_AGENT_NAME else ""

/-- The command `_DeleteLogFile` runs. -/
def deleteLogFileCmd (windows : Bool) : String :=
  if windows then "Remove-Item -Path " ++ SQL_SERVER_AGENT_LOG_PATH_WINDOWS
  else ""

/-- The command `StartService` runs to start the service. -/
def startServiceCmd (windows : Bool) : String :=
  if windows then "Start-Service -Name " ++ SQL_SERVER_AGENT_NAME else ""

/-- The `_ServiceStatus` parse of the command output:
`status.split('\n')[0].strip()`. -/
def serviceStatusParse (out : String) : List Char :=
  pyStrip ((splitOnChar '\n' out.toList).headD [])

/-- The function `StartService`, with the trace of commands it issues, in order: query the
service status (raising `RunCommandError` on a non-empty stderr); when the
parsed status is `Running`, stop the service and delete its log file (each
raising on a non-empty stderr); finally issue the start command, raising
`AgentExecutionError` on a non-empty stderr. -/
def StartService (windows : Bool) (run : String → CmdResult) :
    Except PyExn Unit × List String :=
  let rs := run (serviceStatusCmd windows)
  if rs.err ≠ "" then
    (Except.error (PyExn.runCommandError ("Failed to get service status: " ++ rs.err)),
     [serviceStatusCmd windows])
  else
    let status := serviceStatusParse rs.out
    if status = "Running".toList then
      let rstop := run (stopServiceCmd windows)
      if rstop.err ≠ "" then
        (Except.error (PyExn.agentExecutionError ("Failed to stop service: " ++ rstop.err)),
         [serviceStatusCmd windows, stopServiceCmd windows])
      else
        let rdel := run (deleteLogFileCmd windows)
        if rdel.err ≠ "" then
          (Except.error (PyExn.runCommandError ("Failed to delete log: " ++ rdel.err)),
           [serviceStatusCmd windows, stopServiceCmd windows, deleteLogFileCmd windows])
        else
          let rstart := run (startServiceCmd windows)
          if rstart.err ≠ "" then
            (Except.error (PyExn.agentExecutionError ("Failed to start service: " ++ rstart.err)),
             [serviceStatusCmd windows, stopServiceCmd windows, deleteLogFileCmd windows,
              startServiceCmd windows])
          else
            (Except.ok (),
             [serviceStatusCmd windows, stopServiceCmd windows, deleteLogFileCmd windows,
              startServiceCmd windows])
    else
      let rstart := run (startServiceCmd windows)
      if rstart.err ≠ "" then
        (Except.error (PyExn.agentExecutionError ("Failed to start service: " ++ rstart.err)),
         [serviceStatusCmd windows, startServiceCmd windows])
      else
        (Except.ok (), [serviceStatusCmd windows, startServiceCmd windows])

/-! ## Error-propagation policy (C2): `AddRepo` (`agent_helper.py` lines
41-68), `SetUpAgent` (`integrationtest_helper.py` lines 49-119) and
`UploadLoadTestResultToBucket` (`loadtest_helper.py` lines 162-178) -/
def SQL_SERVER_AGENT_EXE_PATH : String :=
  "\x27C:\\Program Files\\Google\\google-cloud-sql-server-agent\\google-cloud-sql-server-agent.exe\x27"

def unstableRepoUrl : String :=
  "https://us-central1-googet.pkg.dev/projects/sql-server-solutions/repos/google-cloud-sql-server-agent-windows-x86-64-unstable"

def stableRepoUrl : String :=
  "https://packages.cloud.google.com/yuck/repos/google-cloud-sql-server-agent-windows"

/-- The `repos` dictionary of `AddRepo`; a missing key is a Python `KeyError`. -/
def repoUrl (repoVersion : String) : Option String :=
  match repoVersion with
  | "unstable" => some unstableRepoUrl
  | "stable" => some stableRepoUrl
  | _ => none

/-- The `gsutil cp` command of the `google3` branch of `AddRepo`. -/
def gsutilCpCmd (g3FilePath : String) : String :=
  "gsutil cp " ++ g3FilePath ++ " " ++ SQL_SERVER_AGENT_EXE_PATH

/-- The `googet addrepo` command of the package-repo branch of `AddRepo`. -/
def googetAddRepoCmd (url : String) : String :=
  "googet addrepo " ++ SQL_SERVER_AGENT_NAME ++ " " ++ url

/-- The function `AddRepo`: on the Windows `google3` branch the `gsutil` copy is run and
its result deliberately not checked (gsutil streams normal output to stderr);
on the package-repo branch a non-empty stderr raises `RunCommandError`; on the
non-Windows branch the empty command is run and checked the same way. -/
def AddRepo (windows : Bool) (repoVersion g3FilePath : String)
    (run : String → CmdResult) : Except PyExn Unit :=
  if windows then
    if repoVersion = "google3" then
      let _ := run (gsutilCpCmd g3FilePath)
      Except.ok ()
    else
      match repoUrl repoVersion with
      | none => Except.error PyExn.keyError
      | some url =>
        let r := run (googetAddRepoCmd url)
        if r.err ≠ "" then
          Except.error (PyExn.runCommandError ("Failed to add repo: " ++ r.err))
        else Except.ok ()
  else
    let r := run ""
    if r.err ≠ "" then
      Except.error (PyExn.runCommandError ("Failed to add repo: " ++ r.err))
    else Except.ok ()

/-- The way `SetUpAgent` handles its one remote call: the returned triple is
discarded entirely (`_, _, _ = bct_test_utils.RunCommandOnVm(vm_agent, cmd)`),
so no error is ever raised locally, whatever the stderr; `cmd` stands for the
built setup command. -/
def SetUpAgentResultHandling (run : String → CmdResult) (cmd : String) :
    Except PyExn Unit :=
  let _ := run cmd
  Except.ok ()

/-- The function `UploadLoadTestResultToBucket`: the stderr of the `gsutil cp` upload is
discarded (`_, out, _ = ...`), so no error is ever raised locally. -/
def UploadLoadTestResultToBucket (agentInstalled : Bool)
    (testResultPath rawDataBucketPath rawDataFileName : String)
    (run : String → CmdResult) : Except PyExn Unit :=
  let cmd :=
    if agentInstalled then
      "gsutil cp " ++ testResultPath ++ " " ++ rawDataBucketPath
        ++ rawDataFileName ++ "-agent_installed.txt"
    else
      "gsutil cp " ++ testResultPath ++ " " ++ rawDataBucketPath
        ++ rawDataFileName ++ ".txt"
  let _ := run cmd
  Except.ok ()

/-! ## Script Materializer (C3): `SetupHammerDB` (`loadtest_helper.py` lines
55-66, 121-149) and the `SetUpAgent` template escaping
(`integrationtest_helper.py` lines 80-81) -/
/-- The backtick character, the escape character of PowerShell. -/
def backtick : Char := Char.ofNat 96

/-- Every occurrence of the dollar character is immediately preceded by a
backtick, i.e. the text is escaped as `` `$ `` throughout. -/
def dollarsEscaped : List Char → Bool
  | [] => true
  | [c] => c != '$'
  | a :: b :: rest =>
    if a = backtick ∧ b = '$' then dollarsEscaped rest
    else if a = '$' then false
    else dollarsEscaped (b :: rest)

/-- The field `self._hammerdb_path`: `C:\Program Files\HammerDB-{hammerdb_version}`. -/
def hammerdbPath (version : String) : String :=
  "C:\\Program Files\\HammerDB-" ++ version

/-- The `Set-Content` command `_SaveFileToHammerDBFolder` builds around the
file content (which `SetupHammerDB` reaches through `_RunTclScripts`). -/
def saveFileToHammerDBCmd (version filename : String) (content : List Char) :
    List Char :=
  ("Set-Content -Path \x27" ++ hammerdbPath version ++ "\\" ++ filename
    ++ "\x27 -Value @\"\n").toList
  ++ content
  ++ "\n\"@ -Encoding ascii".toList

/-- The `SetupHammerDB` rendering of `setups.tcl`: substitute the SQL Server
private IP for `%SERVER%`, then the secret password for `%PASSWORD%`; no
escaping of any kind is applied. -/
def setupsTclRender (template serverIp pswd : List Char) : List Char :=
  strReplace (strReplace template "%SERVER%".toList serverIp)
    "%PASSWORD%".toList pswd

/-- The full `Set-Content` command that `SetupHammerDB` causes to be issued
for the rendered `setups.tcl`. -/
def SetupHammerDBSaveCmd (version : String)
    (template serverIp pswd : List Char) : List Char :=
  saveFileToHammerDBCmd version "setups.tcl" (setupsTclRender template serverIp pswd)

/-- The `SetUpAgent` escaping of the Windows setup-script template before it is
embedded in a here-string: `script.replace('$', '`$')` then
`script.replace('@', '`@')`. -/
def setUpAgentEscapedScript (script : List Char) : List Char :=
  strReplace (strReplace script ['$'] [backtick, '$']) ['@'] [backtick, '@']

/-- A two-line extract of `load_test/setups.tcl` with both placeholders, used
as the concrete template. -/
def setupsTclTemplate : List Char :=
  "diset connection mssqls_pass %PASSWORD%\ndiset connection mssqls_server %SERVER%".toList

/-! ## Load-Test Result Aggregator: `ProcessLoadTestResult`
(`loadtest_helper.py` lines 191-247)

`round(np.mean(xs))` on a list of Python ints is half-to-even rounding
(half to even) of the arithmetic mean.  `npMeanRound` computes it with exact
integer arithmetic (`roundHalfEvenDiv`); `roundHalfEven` is the same rounding
stated on the exact rational mean, and `roundHalfEvenDiv_eq` proves the two
agree.  (The source computes the mean in float64; for the row counts and
magnitudes of these load-test logs the float64 mean is exact enough that the
rounded integer agrees with the exact rational mean.)  `np.mean([])` is NaN
and `round(nan)` raises `ValueError`, modelled as `none`. -/
/-- Half-to-even rounding of `s / n`, in integer arithmetic:
`q` is the floor of the quotient and `r` the remainder, and the fractional
part `r/n` is compared with one half by comparing `2*r` with `n`. -/
def roundHalfEvenDiv (s : Int) (n : Nat) : Int :=
  let q := s.ediv n
  let r := s.emod n
  if 2 * r < (n : Int) then q
  else if (n : Int) < 2 * r then q + 1
  else if q.emod 2 = 0 then q else q + 1

/-- Half-to-even rounding of an exact rational. -/
def roundHalfEven (x : ℚ) : Int :=
  if Int.fract x < 1 / 2 then ⌊x⌋
  else if 1 / 2 < Int.fract x then ⌊x⌋ + 1
  else if (⌊x⌋).emod 2 = 0 then ⌊x⌋ else ⌊x⌋ + 1

/-- The value `round(np.mean(xs))`: `none` models the `ValueError` that
`round(np.mean([]))` raises (NaN); otherwise half-to-even rounding of the exact
arithmetic mean. -/
def npMeanRound (xs : List Int) : Option Int :=
  if xs.isEmpty then none
  else some (roundHalfEvenDiv xs.sum xs.length)

/-- The seven per-metric means `ProcessLoadTestResult` records (stored on the
helper instance; the `agent_installed` flag only selects which set of fields
receives them and does not change the computation). -/
structure LoadMeans where
  mean_trans_per_sec : Int
  mean_lock_reqs_per_sec : Int
  mean_lock_timeouts_per_sec : Int
  mean_lock_waits_per_sec : Int
  mean_deadlocks_per_sec : Int
  mean_wait_time : Int
  mean_latch_wait_time : Int
deriving DecidableEq

/-- The seven per-metric sample lists of `ProcessLoadTestResult`, named after
the local lists of the source. -/
structure SampleLists where
  trans_per_sec : List Int
  lock_reqs_per_sec : List Int
  lock_timeouts_per_sec : List Int
  lock_waits_per_sec : List Int
  deadlocks_per_sec : List Int
  avg_wait_time : List Int
  avg_latch_wait_time : List Int
deriving DecidableEq

/-- The surviving rows of the parsing loop: drop the header line, split every
remaining line on commas, and keep exactly the rows with 9 fields. -/
def resultRows (log : List Char) : List (List (List Char)) :=
  (((splitOnChar '\n' log).drop 1).map (fun row => splitOnChar ',' row)).filter
    (fun cols => cols.length == 9)

/-- The contribution of one surviving row: `int(...)` of columns 0, 3, 4, 5, 6, 7
and 8 (columns 1-2 are ignored); a failing parse is the `ValueError` that
aborts the whole function. -/
def parseRow (cols : List (List Char)) :
    Option (Int × Int × Int × Int × Int × Int × Int) := do
  let a ← pyInt (cols.getD 0 [])
  let b ← pyInt (cols.getD 3 [])
  let c ← pyInt (cols.getD 4 [])
  let d ← pyInt (cols.getD 5 [])
  let e ← pyInt (cols.getD 6 [])
  let f ← pyInt (cols.getD 7 [])
  let g ← pyInt (cols.getD 8 [])
  pure (a, b, c, d, e, f, g)

/-- The seven per-metric sample lists, in source order. -/
def metricSampleLists (log : List Char) : Option SampleLists :=
  (mapMOpt parseRow (resultRows log)).map (fun samples =>
    ⟨samples.map (fun t => t.1), samples.map (fun t => t.2.1),
     samples.map (fun t => t.2.2.1), samples.map (fun t => t.2.2.2.1),
     samples.map (fun t => t.2.2.2.2.1), samples.map (fun t => t.2.2.2.2.2.1),
     samples.map (fun t => t.2.2.2.2.2.2)⟩)

/-- The function `ProcessLoadTestResult` up to the recorded means: parse the sample lists,
then reduce each by `round(np.mean(...))`; `none` is a raised `ValueError`
(from `int(...)` on a bad field or from `round` of the NaN mean of an empty
list),
in which case no mean is recorded. -/
def ProcessLoadTestResult (log : List Char) : Option LoadMeans := do
  let ls ← metricSampleLists log
  let m0 ← npMeanRound ls.trans_per_sec
  let m1 ← npMeanRound ls.lock_reqs_per_sec
  let m2 ← npMeanRound ls.lock_timeouts_per_sec
  let m3 ← npMeanRound ls.lock_waits_per_sec
  let m4 ← npMeanRound ls.deadlocks_per_sec
  let m5 ← npMeanRound ls.avg_wait_time
  let m6 ← npMeanRound ls.avg_latch_wait_time
  pure ⟨m0, m1, m2, m3, m4, m5, m6⟩

/-- The number of lines after the header that split into exactly 9
comma-separated fields. -/
def wellFormedRowCount (log : List Char) : Nat :=
  ((splitOnChar '\n' log).drop 1).countP
    (fun row => (splitOnChar ',' row).length == 9)

/-- A load-test log with 1 header line, 3 well-formed rows and 2 malformed
rows. -/
def loadTestLogA : List Char :=
  ("Counter,_,_,LockReqs,LockTimeouts,LockWaits,Deadlocks,AvgWait,AvgLatchWait\n"
    ++ "100,-,-,5,0,2,1,10,20\n200,-,-,7,1,3,2,12,22\n150,-,-,6,0,2,1,11,21\n"
    ++ "incomplete,row\ngarbage").toList

/-- A load-test log with a header and the two example rows of the spec. -/
def loadTestLogB : List Char :=
  "header\n100,-,-,5,0,2,1,10,20\n200,-,-,7,1,3,2,12,22".toList

/-! ## Report generation: `GenerateLoadTestResult`
(`loadtest_helper.py` lines 249-352)

The fourteen mean fields of the helper instance.  `GenerateLoadTestResult` builds
the report by appending one `label value\n` line per `result +=` statement;
`GenerateLoadTestResultEntries` lists those (label, value) pairs in source
order and `GenerateLoadTestResult` renders them.  Integer fields are rendered
with `toString` (identical to Python `str` on ints); the percentage values
are true-division floats, whose Python rendering is abstracted by `fmt`
applied to the exact rational value. -/
structure LoadtestState where
  mean_trans_per_sec : Int
  mean_lock_reqs_per_sec : Int
  mean_lock_timeouts_per_sec : Int
  mean_lock_waits_per_sec : Int
  mean_deadlocks_per_sec : Int
  mean_wait_time : Int
  mean_latch_wait_time : Int
  mean_trans_per_sec_agent_installed : Int
  mean_lock_reqs_per_sec_agent_installed : Int
  mean_lock_timeouts_per_sec_agent_installed : Int
  mean_lock_waits_per_sec_agent_installed : Int
  mean_deadlocks_per_sec_agent_installed : Int
  mean_wait_time_agent_installed : Int
  mean_latch_wait_time_agent_installed : Int
deriving DecidableEq

/-- The (label, value) pairs of the report, in source order.  Each `diff` line is
guarded by `if self.mean_X != 0` and its value is
`abs(meanX - meanX_agent_installed) * 100 / meanX`.  Note that the
source line labelled `mean_lock_reqs_per_sec_agent_installed:` prints
`self.mean_lock_waits_per_sec_agent_installed` (`loadtest_helper.py` line
291). -/
def GenerateLoadTestResultEntries (s : LoadtestState) (fmt : ℚ → String) :
    List (String × String) :=
  let diff_trans := |s.mean_trans_per_sec - s.mean_trans_per_sec_agent_installed|
  let diff_lock_reqs :=
    |s.mean_lock_reqs_per_sec - s.mean_lock_reqs_per_sec_agent_installed|
  let diff_lock_timeouts :=
    |s.mean_lock_timeouts_per_sec - s.mean_lock_timeouts_per_sec_agent_installed|
  let diff_lock_waits :=
    |s.mean_lock_waits_per_sec - s.mean_lock_waits_per_sec_agent_installed|
  let diff_deadlocks :=
    |s.mean_deadlocks_per_sec - s.mean_deadlocks_per_sec_agent_installed|
  let diff_wait := |s.mean_wait_time - s.mean_wait_time_agent_installed|
  let diff_latch_wait :=
    |s.mean_latch_wait_time - s.mean_latch_wait_time_agent_installed|
  [("mean_trans_per_sec:", toString s.mean_trans_per_sec),
   ("mean_trans_per_sec_agent_installed:",
     toString s.mean_trans_per_sec_agent_installed)]
  ++ (if s.mean_trans_per_sec ≠ 0 then
        [("diff_trans_per_sec:",
          fmt ((diff_trans : ℚ) * 100 / (s.mean_trans_per_sec : ℚ)))]
      else [])
  ++ [("mean_lock_reqs_per_sec:", toString s.mean_lock_reqs_per_sec),
      ("mean_lock_reqs_per_sec_agent_installed:",
        toString s.mean_lock_waits_per_sec_agent_installed)]
  ++ (if s.mean_lock_reqs_per_sec ≠ 0 then
        [("diff_lock_reqs_per_sec:",
          fmt ((diff_lock_reqs : ℚ) * 100 / (s.mean_lock_reqs_per_sec : ℚ)))]
      else [])
  ++ [("mean_lock_timeouts_per_sec:", toString s.mean_lock_timeouts_per_sec),
      ("mean_lock_timeouts_per_sec_agent_installed:",
        toString s.mean_lock_timeouts_per_sec_agent_installed)]
  ++ (if s.mean_lock_timeouts_per_sec ≠ 0 then
        [("diff_lock_timeouts_per_sec:",
          fmt ((diff_lock_timeouts : ℚ) * 100 / (s.mean_lock_timeouts_per_sec : ℚ)))]
      else [])
  ++ [("mean_lock_waits_per_sec:", toString s.mean_lock_waits_per_sec),
      ("mean_lock_waits_per_sec_agent_installed:",
        toString s.mean_lock_waits_per_sec_agent_installed)]
  ++ (if s.mean_lock_waits_per_sec ≠ 0 then
        [("diff_lock_waits_per_sec:",
          fmt ((diff_lock_waits : ℚ) * 100 / (s.mean_lock_waits_per_sec : ℚ)))]
      else [])
  ++ [("mean_deadlocks_per_sec:", toString s.mean_deadlocks_per_sec),
      ("mean_deadlocks_per_sec_agent_installed:",
        toString s.mean_deadlocks_per_sec_agent_installed)]
  ++ (if s.mean_deadlocks_per_sec ≠ 0 then
        [("diff_deadlocks_per_sec:",
          fmt ((diff_deadlocks : ℚ) * 100 / (s.mean_deadlocks_per_sec : ℚ)))]
      else [])
  ++ [("mean_wait_time:", toString s.mean_wait_time),
      ("mean_wait_time_agent_installed:", toString s.mean_wait_time_agent_installed)]
  ++ (if s.mean_wait_time ≠ 0 then
        [("diff_wait_time:",
          fmt ((diff_wait : ℚ) * 100 / (s.mean_wait_time : ℚ)))]
      else [])
  ++ [("mean_latch_wait_time:", toString s.mean_latch_wait_time),
      ("mean_latch_wait_time_agent_installed:",
        toString s.mean_latch_wait_time_agent_installed)]
  ++ (if s.mean_latch_wait_time ≠ 0 then
        [("diff_latch_wait_time:",
          fmt ((diff_latch_wait : ℚ) * 100 / (s.mean_latch_wait_time : ℚ)))]
      else [])

/-- The rendered report string: one `label value\n` line per entry, appended
in order onto the initially empty `result`. -/
def GenerateLoadTestResult (s : LoadtestState) (fmt : ℚ → String) : String :=
  (GenerateLoadTestResultEntries s fmt).foldl
    (fun acc e => acc ++ e.1 ++ " " ++ e.2 ++ "\n") ""

/-- The labels of the report lines, in order. -/
def reportLabels (s : LoadtestState) (fmt : ℚ → String) : List String :=
  (GenerateLoadTestResultEntries s fmt).map Prod.fst

/-! ## Theorems -/

set_option maxRecDepth 100000

/-- Helper for the always-`RUNNING` scenario: with every response `RUNNING`
and a clean stderr, the loop spends all its fuel, issuing one GET and one
sleep per iteration. -/
theorem pollLoop_all_running (responses : Nat → String × String)
    (h : ∀ i, responses i = ("RUNNING", "")) :
    ∀ fuel gets sleeps, pollLoop responses fuel "RUNNING" gets sleeps =
      ⟨ExecResult.ok "FAILED", gets + fuel, sleeps + fuel⟩ := by
  intro fuel
  induction fuel with
  | zero => intro gets sleeps; simp [pollLoop]
  | succ n ih =>
    intro gets sleeps
    rw [pollLoop, if_pos rfl, h gets]
    simpa [ih (gets + 1) (sleeps + 1)] using by omega

/-! ## Claim theorems: Evaluation Poller -/
/-- C1 (counterexample): with every status GET returning state `RUNNING` and a
clean stderr, `_GetExecutionStatus` issues 11 remote GET calls, not at most 10:
the initial fetch before the loop plus one fetch in each of the ten loop
iterations. -/
theorem C1_counterexample :
    GetExecutionStatus (fun _ => ("RUNNING", "")) =
      ⟨ExecResult.ok "FAILED", 11, 10⟩ ∧ ¬ (11 ≤ 10) := by
  constructor
  · rfl
  · decide

/-- C1 (amended): if every polled execution state is `RUNNING`, then
`_GetExecutionStatus` returns the overall result `FAILED` without raising an
exception, after exactly 11 status polls (remote GET calls) — the initial
fetch plus one per loop iteration — of which only the first 10 results are
ever examined, and 10 sleeps. -/
theorem C1_poller_all_running_returns_failed
    (responses : Nat → String × String)
    (h : ∀ i, responses i = ("RUNNING", "")) :
    GetExecutionStatus responses = ⟨ExecResult.ok "FAILED", 11, 10⟩ := by
  rw [GetExecutionStatus, h 0]
  simpa using pollLoop_all_running responses h 10 1 0

/-- C1 (witness): the amended theorem applied to the constantly-`RUNNING`
response stream. -/
theorem C1_witness :
    GetExecutionStatus (fun _ => ("RUNNING", "")) =
      ⟨ExecResult.ok "FAILED", 11, 10⟩ :=
  C1_poller_all_running_returns_failed (fun _ => ("RUNNING", "")) (fun _ => rfl)

/-- One `RUNNING` iteration of the poll loop: sleep once, fetch the next
response, and continue with its state. -/
theorem pollLoop_step (responses : Nat → String × String) (fuel : Nat)
    (o : String) (gets sleeps : Nat) (h : responses gets = (o, "")) :
    pollLoop responses (fuel + 1) "RUNNING" gets sleeps =
      pollLoop responses fuel o (gets + 1) (sleeps + 1) := by
  rw [pollLoop, if_pos rfl, h]
  simp

/-- A non-`RUNNING` state stops the poll loop at once, with no further GET
calls and no further sleeps. -/
theorem pollLoop_stop (responses : Nat → String × String) (fuel : Nat)
    (st : String) (gets sleeps : Nat) (h : st ≠ "RUNNING") :
    pollLoop responses (fuel + 1) st gets sleeps =
      ⟨ExecResult.ok st, gets, sleeps⟩ := by
  rw [pollLoop, if_neg h]

/-- C6: (1) if the polled state is `RUNNING` on attempts 1 and 2 and becomes
`SUCCEEDED` on attempt 3, polling stops immediately — exactly 3 GET calls and
2 sleeps in total, so no further waits — and that state is returned;
(2) `VerifyEvaluationRun` raises `EvaluationExecutionError` exactly when the
returned final state is `FAILED`, and any other returned state is treated as
success. -/
theorem C6_poller_early_stop_and_failed_raises :
    (∀ responses : Nat → String × String,
      responses 0 = ("RUNNING", "") → responses 1 = ("RUNNING", "") →
      responses 2 = ("SUCCEEDED", "") →
      GetExecutionStatus responses = ⟨ExecResult.ok "SUCCEEDED", 3, 2⟩)
    ∧ (∀ (responses : Nat → String × String) (evaluationId executionId st : String),
      (GetExecutionStatus responses).result = ExecResult.ok st →
      ((∃ e, VerifyEvaluationRun responses evaluationId executionId =
          ExecResult.raise e) ↔ st = "FAILED")) := by
  constructor
  · intro responses h0 h1 h2
    rw [GetExecutionStatus, h0]
    have s1 : pollLoop responses 10 "RUNNING" 1 0 = pollLoop responses 9 "RUNNING" 2 1 := by
      simpa using pollLoop_step responses 9 "RUNNING" 1 0 h1
    have s2 : pollLoop responses 9 "RUNNING" 2 1 = pollLoop responses 8 "SUCCEEDED" 3 2 := by
      simpa using pollLoop_step responses 8 "SUCCEEDED" 2 1 h2
    have s3 : pollLoop responses 8 "SUCCEEDED" 3 2 = ⟨ExecResult.ok "SUCCEEDED", 3, 2⟩ := by
      simpa using pollLoop_stop responses 7 "SUCCEEDED" 3 2 (by decide)
    simp [s1, s2, s3]
  · intro responses evaluationId executionId st h
    rcases hP : GetExecutionStatus responses with ⟨r, g, sl⟩
    rw [hP] at h
    simp only at h
    subst h
    rw [VerifyEvaluationRun, hP]
    by_cases hst : st = "FAILED" <;> simp [hst]

/-- C6 (witness): the theorem applied to a response stream that is `RUNNING`
twice and then `SUCCEEDED`, and to the resulting final state. -/
theorem C6_witness :
    GetExecutionStatus (fun i => if i ≤ 1 then ("RUNNING", "") else ("SUCCEEDED", "")) =
      ⟨ExecResult.ok "SUCCEEDED", 3, 2⟩ ∧
    ((∃ e, VerifyEvaluationRun
        (fun i => if i ≤ 1 then ("RUNNING", "") else ("SUCCEEDED", ""))
        "evaluation-1" "execution-1" = ExecResult.raise e) ↔
      ("SUCCEEDED" : String) = "FAILED") :=
  ⟨C6_poller_early_stop_and_failed_raises.1
      (fun i => if i ≤ 1 then ("RUNNING", "") else ("SUCCEEDED", "")) rfl rfl rfl,
   C6_poller_early_stop_and_failed_raises.2
      (fun i => if i ≤ 1 then ("RUNNING", "") else ("SUCCEEDED", ""))
      "evaluation-1" "execution-1" "SUCCEEDED" rfl⟩

/-- Folding an accumulate-if-matching loop equals concatenating over the
filtered list. -/
theorem foldl_filter_concat (p : List Char → Bool) (f : List Char → List Char) :
    ∀ (lines : List (List Char)) (acc : List Char),
      lines.foldl (fun a l => if p l then a ++ f l else a) acc
        = acc ++ ((lines.filter p).map f).flatten := by
  intro lines
  induction lines with
  | nil => intro acc; simp
  | cons l ls ih =>
    intro acc
    by_cases hp : p l <;> simp [hp, ih, List.append_assoc]

/-- C5: scanning the fetched log text, zero lines starting with
`{"level":"error"` yields success (no exception), and at least one such line
raises `AgentExecutionError` whose message is the fixed header followed by the
concatenation of all matching lines (each stripped and newline-terminated). -/
theorem C5_verify_agent_running_log_scan (out : List Char) :
    (agentErrorLines out = [] → VerifyAgentRunningScan out = none)
    ∧ (agentErrorLines out ≠ [] → VerifyAgentRunningScan out =
        some ("Unexpected error happens during the run. \n".toList ++
          ((agentErrorLines out).map (fun l => pyStrip l ++ ['\n'])).flatten)) := by
  have hmsg : agentLogErrMsg out =
      ((agentErrorLines out).map (fun l => pyStrip l ++ ['\n'])).flatten := by
    simpa [agentLogErrMsg, agentErrorLines] using
      foldl_filter_concat (fun line => logErrorMarker.isPrefixOf line)
        (fun l => pyStrip l ++ ['\n']) (splitOnChar '\n' out) []
  have hflag : agentLogHasErr out = true ↔ agentErrorLines out ≠ [] := by
    simp [agentLogHasErr, agentErrorLines, List.any_eq_true,
      List.filter_eq_nil_iff]
  constructor
  · intro h
    rw [VerifyAgentRunningScan, if_neg]
    intro hc
    exact (hflag.mp hc) h
  · intro h
    rw [VerifyAgentRunningScan, if_pos (hflag.mpr h), hmsg]

/-- C5 (witness): the theorem applied to a clean log and to a log holding two
error-marker lines around a normal line. -/
theorem C5_witness :
    VerifyAgentRunningScan "\x7b\"level\":\"info\"\x7d ok\nall good".toList = none ∧
    VerifyAgentRunningScan
        "\x7b\"level\":\"error\",\"msg\":\"a\"\x7d\nok\n\x7b\"level\":\"error\",\"msg\":\"b\"\x7d ".toList =
      some ("Unexpected error happens during the run. \n".toList ++
        ((agentErrorLines
            "\x7b\"level\":\"error\",\"msg\":\"a\"\x7d\nok\n\x7b\"level\":\"error\",\"msg\":\"b\"\x7d ".toList).map
          (fun l => pyStrip l ++ ['\n'])).flatten) :=
  ⟨(C5_verify_agent_running_log_scan _).1 (by decide),
   (C5_verify_agent_running_log_scan _).2 (by decide)⟩

/-- C8: with clean stderr on every sub-command, when the parsed service status
is `Running` the operation issues the stop-service command, then the
log-file-delete command, then the start-service command, in that order (after
the status query); when the parsed status is not `Running`, the only command
issued after the status query is the start-service command. -/
theorem C8_start_service_order (windows : Bool) (run : String → CmdResult)
    (hs : (run (serviceStatusCmd windows)).err = "")
    (hstop : (run (stopServiceCmd windows)).err = "")
    (hdel : (run (deleteLogFileCmd windows)).err = "")
    (hstart : (run (startServiceCmd windows)).err = "") :
    (serviceStatusParse (run (serviceStatusCmd windows)).out = "Running".toList →
      StartService windows run =
        (Except.ok (), [serviceStatusCmd windows, stopServiceCmd windows,
          deleteLogFileCmd windows, startServiceCmd windows]))
    ∧ (serviceStatusParse (run (serviceStatusCmd windows)).out ≠ "Running".toList →
      StartService windows run =
        (Except.ok (), [serviceStatusCmd windows, startServiceCmd windows])) := by
  constructor <;> intro h <;> simp at h <;>
    simp [StartService, hs, hstop, hdel, hstart, h]

/-- C8 (witness): the theorem applied to one executor whose status query
reports `Running` and to one whose status query reports `Stopped`. -/
theorem C8_witness :
    StartService true
        (fun cmd => if cmd = serviceStatusCmd true then ⟨0, "Running\n", ""⟩
          else ⟨0, "", ""⟩) =
      (Except.ok (), [serviceStatusCmd true, stopServiceCmd true,
        deleteLogFileCmd true, startServiceCmd true]) ∧
    StartService true
        (fun cmd => if cmd = serviceStatusCmd true then ⟨0, "Stopped\n", ""⟩
          else ⟨0, "", ""⟩) =
      (Except.ok (), [serviceStatusCmd true, startServiceCmd true]) :=
  ⟨(C8_start_service_order true _ (by decide) (by decide) (by decide) (by decide)).1
      (by decide),
   (C8_start_service_order true _ (by decide) (by decide) (by decide) (by decide)).2
      (by decide)⟩

/-- C2 (counterexample): the `google3` branch of `AddRepo` runs its remote copy,
receives a non-empty stderr, and raises nothing — a remote-call failure
outside the polling loop of the Evaluation Poller that is silently ignored, contradicting
the claimed propagation policy. -/
theorem C2_counterexample :
    AddRepo true "google3"
        "gs://sql-server-agent-integration/user/google-cloud-sql-server-agent.exe"
        (fun _ => ⟨0, "", "CommandException: failure"⟩) = Except.ok () ∧
      ("CommandException: failure" : String) ≠ "" := by
  constructor
  · rfl
  · decide

/-- C2 (amended): on the checked branches of `AddRepo` a non-empty stderr is
immediately converted to a typed `RunCommandError` whose message carries the
error text (though not the original command); but the `google3`
branch of `AddRepo`, `SetUpAgent`, and `UploadLoadTestResultToBucket` deliberately discard
the stderr of the remote call and never raise, in addition to the
fixed-count polling loop of the Evaluation Poller. -/
theorem C2_error_propagation_amended :
    (∀ (run : String → CmdResult) (g3FilePath : String),
      (run (googetAddRepoCmd stableRepoUrl)).err ≠ "" →
      AddRepo true "stable" g3FilePath run =
        Except.error (PyExn.runCommandError
          ("Failed to add repo: " ++ (run (googetAddRepoCmd stableRepoUrl)).err)))
    ∧ (∀ (run : String → CmdResult) (g3FilePath : String),
      (run (googetAddRepoCmd unstableRepoUrl)).err ≠ "" →
      AddRepo true "unstable" g3FilePath run =
        Except.error (PyExn.runCommandError
          ("Failed to add repo: " ++ (run (googetAddRepoCmd unstableRepoUrl)).err)))
    ∧ (∀ (run : String → CmdResult) (g3FilePath : String),
      AddRepo true "google3" g3FilePath run = Except.ok ())
    ∧ (∀ (run : String → CmdResult) (cmd : String),
      SetUpAgentResultHandling run cmd = Except.ok ())
    ∧ (∀ (run : String → CmdResult) (agentInstalled : Bool)
        (testResultPath rawDataBucketPath rawDataFileName : String),
      UploadLoadTestResultToBucket agentInstalled testResultPath
        rawDataBucketPath rawDataFileName run = Except.ok ()) := by
  refine ⟨?_, ?_, ?_, ?_, ?_⟩
  · intro run g3FilePath h
    simp [AddRepo, repoUrl, h]
  · intro run g3FilePath h
    simp [AddRepo, repoUrl, h]
  · intro run g3FilePath
    simp [AddRepo]
  · intro run cmd
    simp [SetUpAgentResultHandling]
  · intro run agentInstalled testResultPath rawDataBucketPath rawDataFileName
    simp [UploadLoadTestResultToBucket]

/-- C2 (witness): the checked branch of the amended theorem applied to an executor
whose `googet addrepo` call fails with stderr `boom`. -/
theorem C2_witness :
    AddRepo true "stable"
        "gs://sql-server-agent-integration/user/google-cloud-sql-server-agent.exe"
        (fun _ => ⟨0, "", "boom"⟩) =
      Except.error (PyExn.runCommandError ("Failed to add repo: " ++ "boom")) :=
  C2_error_propagation_amended.1 (fun _ => ⟨0, "", "boom"⟩)
    "gs://sql-server-agent-integration/user/google-cloud-sql-server-agent.exe"
    (by decide)

/-- C3 (counterexample): substituting the password `p$w` into the
PowerShell-destined `setups.tcl` template yields a rendered `Set-Content`
command in which the `$` of the password — the only `$` present — is NOT escaped
as `` `$ ``. -/
theorem C3_counterexample :
    dollarsEscaped
      (SetupHammerDBSaveCmd "4.3" setupsTclTemplate "10.128.0.2".toList
        "p$w".toList) = false := by
  decide

/-- C3 (amended): `SetupHammerDB` substitutes the password verbatim — for
every password, the rendered `Set-Content` command is exactly the template
text around the unmodified password, so a `$` in the password stays
unescaped; the `` `$ `` (and `` `@ ``) escaping is applied elsewhere, by
`SetUpAgent`, to the setup-script template text. -/
theorem C3_password_substituted_verbatim :
    (∀ pswd : List Char,
      SetupHammerDBSaveCmd "4.3" setupsTclTemplate "10.128.0.2".toList pswd =
        ("Set-Content -Path \x27C:\\Program Files\\HammerDB-4.3\\setups.tcl\x27"
          ++ " -Value @\"\ndiset connection mssqls_pass ").toList
        ++ (pswd ++
          "\ndiset connection mssqls_server 10.128.0.2\n\"@ -Encoding ascii".toList))
    ∧ setUpAgentEscapedScript "Write-Host $env:path @args".toList =
        "Write-Host `$env:path `@args".toList
    ∧ dollarsEscaped "Write-Host `$env:path `@args".toList = true := by
  refine ⟨fun pswd => ?_, by decide, by decide⟩
  have h1 : setupsTclRender setupsTclTemplate "10.128.0.2".toList pswd =
      "diset connection mssqls_pass ".toList ++
        (pswd ++ "\ndiset connection mssqls_server 10.128.0.2".toList) := rfl
  rw [SetupHammerDBSaveCmd, saveFileToHammerDBCmd, h1]
  simp [hammerdbPath, List.append_assoc]

/-- The integer-arithmetic rounding agrees with half-to-even rounding of the
exact rational quotient. -/
theorem roundHalfEvenDiv_eq (s : Int) (n : Nat) (hn : 0 < n) :
    roundHalfEvenDiv s n = roundHalfEven ((s : ℚ) / (n : ℚ)) := by
  have hnz : (n : Int) ≠ 0 := by exact_mod_cast hn.ne'
  have hnq : (0 : ℚ) < (n : ℚ) := by exact_mod_cast hn
  have hsum : (n : Int) * (s.ediv n) + s.emod n = s := Int.ediv_add_emod s n
  have hr0 : 0 ≤ s.emod n := Int.emod_nonneg s hnz
  have hrn : s.emod n < (n : Int) := Int.emod_lt_of_pos s (by exact_mod_cast hn)
  have hsumq : (n : ℚ) * ((s.ediv n : Int) : ℚ) + ((s.emod n : Int) : ℚ) = (s : ℚ) := by
    exact_mod_cast hsum
  have hq : (s : ℚ) / (n : ℚ) = ((s.ediv n : Int) : ℚ) + ((s.emod n : Int) : ℚ) / (n : ℚ) := by
    rw [← hsumq]
    field_simp
    ring
  have hfr : (0 : ℚ) ≤ ((s.emod n : Int) : ℚ) / (n : ℚ) := by
    apply div_nonneg _ hnq.le
    exact_mod_cast hr0
  have hfr1 : ((s.emod n : Int) : ℚ) / (n : ℚ) < 1 := by
    rw [div_lt_one hnq]
    exact_mod_cast hrn
  have hfloor : ⌊(s : ℚ) / (n : ℚ)⌋ = s.ediv n := by
    rw [hq, Int.floor_int_add, Int.floor_eq_zero_iff.mpr (Set.mem_Ico.mpr ⟨hfr, hfr1⟩),
      add_zero]
  have hfract : Int.fract ((s : ℚ) / (n : ℚ)) = ((s.emod n : Int) : ℚ) / (n : ℚ) := by
    rw [Int.fract, hfloor, hq]
    ring
  have hiff1 : (Int.fract ((s : ℚ) / (n : ℚ)) < 1 / 2) ↔ (2 * s.emod n < (n : Int)) := by
    rw [hfract, div_lt_div_iff₀ hnq (by norm_num : (0 : ℚ) < 2), one_mul,
      show ((s.emod n : Int) : ℚ) * 2 = ((2 * s.emod n : Int) : ℚ) by push_cast; ring,
      show ((n : ℚ)) = (((n : Int)) : ℚ) by push_cast; ring]
    exact Int.cast_lt
  have hiff2 : ((1 : ℚ) / 2 < Int.fract ((s : ℚ) / (n : ℚ))) ↔ ((n : Int) < 2 * s.emod n) := by
    rw [hfract, div_lt_div_iff₀ (by norm_num : (0 : ℚ) < 2) hnq, one_mul,
      show ((s.emod n : Int) : ℚ) * 2 = ((2 * s.emod n : Int) : ℚ) by push_cast; ring,
      show ((n : ℚ)) = (((n : Int)) : ℚ) by push_cast; ring]
    exact Int.cast_lt
  rw [roundHalfEvenDiv, roundHalfEven]
  simp only [hiff1, hiff2, hfloor]

/-- On a non-empty sample list, `npMeanRound` is half-to-even rounding of the
exact rational arithmetic mean. -/
theorem npMeanRound_spec (xs : List Int) (h : xs ≠ []) :
    npMeanRound xs = some (roundHalfEven ((xs.sum : ℚ) / (xs.length : ℚ))) := by
  rw [npMeanRound, if_neg (by simpa using h),
    roundHalfEvenDiv_eq _ _ (List.length_pos.mpr h)]

/-- A successful `mapMOpt` preserves the length. -/
theorem mapMOpt_length (f : α → Option β) :
    ∀ (l : List α) (l' : List β), mapMOpt f l = some l' → l'.length = l.length := by
  intro l
  induction l with
  | nil =>
    intro l' h
    simp [mapMOpt] at h
    simp [← h]
  | cons a as ih =>
    intro l' h
    rw [mapMOpt] at h
    cases hfa : f a with
    | none => rw [hfa] at h; simp at h
    | some b =>
      rw [hfa] at h
      cases hms : mapMOpt f as with
      | none => rw [hms] at h; simp at h
      | some bs =>
        rw [hms] at h
        simp at h
        subst h
        simp [ih bs hms]

/-- C4: (1) for every log, every line after the header that does not split
into exactly 9 comma-separated fields is excluded from every one of the seven
sample lists of all seven metrics — the length of each sample list is the count of 9-field
lines; (2) on a log with 1 header line, 3 well-formed rows and 2 malformed
rows, every metric has exactly 3 samples; (3) on the two-row example of the
spec the recorded means are the half-to-even-rounded column means — in
particular the mean of column 0 is 150; (4) 150 is exactly the rounding of the
rational mean `(100 + 200) / 2`. -/
theorem C4_aggregator_excludes_malformed_and_averages :
    (∀ (log : List Char) ls, metricSampleLists log = some ls →
      ls.trans_per_sec.length = wellFormedRowCount log ∧
      ls.lock_reqs_per_sec.length = wellFormedRowCount log ∧
      ls.lock_timeouts_per_sec.length = wellFormedRowCount log ∧
      ls.lock_waits_per_sec.length = wellFormedRowCount log ∧
      ls.deadlocks_per_sec.length = wellFormedRowCount log ∧
      ls.avg_wait_time.length = wellFormedRowCount log ∧
      ls.avg_latch_wait_time.length = wellFormedRowCount log)
    ∧ metricSampleLists loadTestLogA =
        some ⟨[100, 200, 150], [5, 7, 6], [0, 1, 0], [2, 3, 2], [1, 2, 1],
          [10, 12, 11], [20, 22, 21]⟩
    ∧ wellFormedRowCount loadTestLogA = 3
    ∧ ProcessLoadTestResult loadTestLogB = some ⟨150, 6, 0, 2, 2, 11, 21⟩
    ∧ (150 : Int) = roundHalfEven (((100 : ℚ) + 200) / 2) := by
  refine ⟨?_, by decide, by decide, by decide, ?_⟩
  · intro log ls h
    rw [metricSampleLists] at h
    cases hm : mapMOpt parseRow (resultRows log) with
    | none => rw [hm] at h; simp at h
    | some samples =>
      rw [hm] at h
      simp only [Option.map, Option.some.injEq] at h
      have hlen : samples.length = (resultRows log).length :=
        mapMOpt_length _ _ _ hm
      have hcount : (resultRows log).length = wellFormedRowCount log := by
        rw [resultRows, wellFormedRowCount, ← List.countP_eq_length_filter,
          List.countP_map]
        rfl
      subst h
      refine ⟨?_, ?_, ?_, ?_, ?_, ?_, ?_⟩ <;>
        simp [List.length_map, hlen, hcount]
  · have h300 : ((100 : ℚ) + 200) / 2 = ((300 : Int) : ℚ) / ((2 : Nat) : ℚ) := by
      norm_num
    rw [h300, ← roundHalfEvenDiv_eq 300 2 (by norm_num)]
    decide

/-- C4 (witness): the universal part of the theorem applied to the
3-good-2-malformed log and its sample lists. -/
theorem C4_witness :
    ([100, 200, 150] : List Int).length = wellFormedRowCount loadTestLogA ∧
    ([5, 7, 6] : List Int).length = wellFormedRowCount loadTestLogA ∧
    ([0, 1, 0] : List Int).length = wellFormedRowCount loadTestLogA ∧
    ([2, 3, 2] : List Int).length = wellFormedRowCount loadTestLogA ∧
    ([1, 2, 1] : List Int).length = wellFormedRowCount loadTestLogA ∧
    ([10, 12, 11] : List Int).length = wellFormedRowCount loadTestLogA ∧
    ([20, 22, 21] : List Int).length = wellFormedRowCount loadTestLogA :=
  C4_aggregator_excludes_malformed_and_averages.1 loadTestLogA
    ⟨[100, 200, 150], [5, 7, 6], [0, 1, 0], [2, 3, 2], [1, 2, 1],
      [10, 12, 11], [20, 22, 21]⟩ (by decide)

/-- C9: on a log none of whose lines after the header splits into exactly 9
comma-separated fields, the sample list of every metric is empty, and
`ProcessLoadTestResult` does not succeed — `round` of the NaN means of the empty lists raises, so no means (zero or otherwise) are recorded; the error-free
branch requires at least one well-formed row. -/
theorem C9_no_well_formed_rows_means_failure (log : List Char)
    (h : ∀ row ∈ (splitOnChar '\n' log).drop 1,
      (splitOnChar ',' row).length ≠ 9) :
    metricSampleLists log = some ⟨[], [], [], [], [], [], []⟩ ∧
    ProcessLoadTestResult log = none := by
  have hrows : resultRows log = [] := by
    rw [resultRows, List.filter_eq_nil_iff]
    intro cols hc
    obtain ⟨row, hrow, rfl⟩ := List.mem_map.mp hc
    simpa using h row hrow
  constructor
  · rw [metricSampleLists, hrows]
    rfl
  · simp [ProcessLoadTestResult, metricSampleLists, hrows, mapMOpt, npMeanRound]

/-- C9 (witness): the theorem applied to a log whose two body lines have 2 and
1 comma-separated fields. -/
theorem C9_witness :
    metricSampleLists "header line\nfoo,bar\nbaz".toList =
      some ⟨[], [], [], [], [], [], []⟩ ∧
    ProcessLoadTestResult "header line\nfoo,bar\nbaz".toList = none :=
  C9_no_well_formed_rows_means_failure "header line\nfoo,bar\nbaz".toList
    (by decide)

/-- Membership in the labels contributed by one conditional report line. -/
theorem mem_map_fst_ite_singleton (x : String) (c : Prop) [Decidable c]
    (e : String × String) :
    (x ∈ (List.map Prod.fst (if c then [e] else []))) ↔ (c ∧ x = e.1) := by
  split_ifs with h <;> simp [h]

/-- C7: for every state of the fourteen means, the per-metric
percentage-difference line (labelled `diff_...:`) appears in the report
exactly when the baseline mean of that metric is non-zero — equivalently, it is
omitted exactly when the baseline mean is 0, so the division by the baseline
mean inside the value of the line is only ever evaluated under a non-zero
divisor. -/
theorem C7_diff_lines_guarded_by_nonzero_baseline (s : LoadtestState)
    (fmt : ℚ → String) :
    ("diff_trans_per_sec:" ∈ reportLabels s fmt ↔ s.mean_trans_per_sec ≠ 0) ∧
    ("diff_lock_reqs_per_sec:" ∈ reportLabels s fmt ↔
      s.mean_lock_reqs_per_sec ≠ 0) ∧
    ("diff_lock_timeouts_per_sec:" ∈ reportLabels s fmt ↔
      s.mean_lock_timeouts_per_sec ≠ 0) ∧
    ("diff_lock_waits_per_sec:" ∈ reportLabels s fmt ↔
      s.mean_lock_waits_per_sec ≠ 0) ∧
    ("diff_deadlocks_per_sec:" ∈ reportLabels s fmt ↔
      s.mean_deadlocks_per_sec ≠ 0) ∧
    ("diff_wait_time:" ∈ reportLabels s fmt ↔ s.mean_wait_time ≠ 0) ∧
    ("diff_latch_wait_time:" ∈ reportLabels s fmt ↔
      s.mean_latch_wait_time ≠ 0) := by
  refine ⟨?_, ?_, ?_, ?_, ?_, ?_, ?_⟩ <;>
    simp [reportLabels, GenerateLoadTestResultEntries, List.map_append,
      List.mem_append, mem_map_fst_ite_singleton]

/-- C10: in every generated report, the single line labelled
`mean_lock_reqs_per_sec_agent_installed:` displays the value of the field
`mean_lock_waits_per_sec_agent_installed`, not the field
`mean_lock_reqs_per_sec_agent_installed`; on a state where the two fields
are 1 and 2 respectively, the displayed value is `1`, not `2`. -/
theorem C10_lock_reqs_line_displays_lock_waits :
    (∀ (s : LoadtestState) (fmt : ℚ → String),
      (GenerateLoadTestResultEntries s fmt).filter
        (fun e => e.1 == "mean_lock_reqs_per_sec_agent_installed:") =
      [("mean_lock_reqs_per_sec_agent_installed:",
        toString s.mean_lock_waits_per_sec_agent_installed)])
    ∧ (GenerateLoadTestResultEntries ⟨0, 0, 0, 0, 0, 0, 0, 0, 2, 0, 1, 0, 0, 0⟩
        (fun _ => "")).filter
        (fun e => e.1 == "mean_lock_reqs_per_sec_agent_installed:") =
      [("mean_lock_reqs_per_sec_agent_installed:", "1")]
    ∧ toString
        (LoadtestState.mean_lock_reqs_per_sec_agent_installed
          ⟨0, 0, 0, 0, 0, 0, 0, 0, 2, 0, 1, 0, 0, 0⟩) = "2"
    ∧ ("1" : String) ≠ "2" := by
  refine ⟨?_, ?_, by decide, by decide⟩
  · intro s fmt
    simp [GenerateLoadTestResultEntries, List.filter_append, apply_ite
      (List.filter (fun (e : String × String) =>
        e.1 == "mean_lock_reqs_per_sec_agent_installed:"))]
  · decide
